import Mathlib

/-!
Verification development for the playback orchestrator in
`src/utils/music/models.py` (class `LavalinkPlayer` and the module-level
helper `get_start_pos`).

The Python code is shallowly embedded as pure Lean functions over an explicit
session-state record.  Python `deque` objects become `List` (head = left end);
`deque(maxlen=n)` eviction is made explicit through `ringAppend`/`ringExtend`.
Millisecond timestamps and durations are `Int` (Python integers do not
overflow).  Calls out to external collaborators (the rendering node, the chat
client, the recommendation service) are modelled as oracle parameters in an
`Env` record; sleeps, log lines, embeds and other presentation-only effects
(`self.update`, `self.command_log`, message sending, `votes`) are not part of
the state because no modelled observable reads them.
-/

namespace AyakaModels

/-- Track metadata, covering both `PartialTrack` (`is_partial = true`) and
`LavalinkTrack` (`is_partial = false`) from `models.py`.  `id = ""` encodes a
falsy / unset playable handle, `temp_id = ""` an unset alternative handle,
`ytid = ""` a missing YouTube id (Python truthiness on strings). -/
structure Track where
  id : String
  title : String
  uri : String
  ytid : String
  source_name : String
  /-- `track.info.get("sourceNameOrig")`, `""` when absent. -/
  source_name_orig : String
  duration : Int
  is_stream : Bool
  /-- per-track loop counter `info["extra"]["track_loops"]`; non-negative in
  the source, and Python truthiness (`if track.track_loops`) is `≠ 0`. -/
  track_loops : Nat
  autoplay : Bool
  is_partial : Bool
  temp_id : String
  deriving Repr, DecidableEq

/-- `self.loop` takes the values `False`, `"current"`, `"queue"`. -/
inductive LoopMode where
  | off
  | current
  | queue
  deriving Repr, DecidableEq

/-- `self.retries_403` dict: `{"last_time": None|datetime, "counter": int}`. -/
structure Retries403 where
  last_time : Option Int
  counter : Int
  deriving Repr, DecidableEq

/-- `self.retries_general_errors` dict:
`{"counter": int, "last_node": str, "last_time": datetime}`. -/
structure RetriesGeneral where
  counter : Int
  last_node : String
  last_time : Int
  deriving Repr, DecidableEq

/-- The session state of one `LavalinkPlayer` (the fields the modelled
operations read or write).  `retries_403`/`retries_general` are `Option`
because the source creates those attributes on demand (`hasattr` checks).
`is_playing` and `paused` live on the `wavelink.Player` base class, which is
not under `src/`; they are carried as plain booleans here (the spec's
`Playing` / user-paused states). -/
structure PlayerState where
  queue : List Track
  played : List Track
  queue_autoplay : List Track
  failed_tracks : List Track
  current : Option Track
  last_track : Option Track
  locked : Bool
  is_closing : Bool
  loop : LoopMode
  is_previows_music : Bool
  autoplay : Bool
  keep_connected : Bool
  native_yt : Bool
  auto_pause : Bool
  paused : Bool
  is_playing : Bool
  last_update : Int
  last_position : Int
  retries_403 : Option Retries403
  retries_general : Option RetriesGeneral
  deriving Repr, DecidableEq

/-- `deque(maxlen := cap).append(t)`: when full, the oldest (leftmost) entry
is evicted. -/
def ringAppend (cap : Nat) (l : List Track) (t : Track) : List Track :=
  (if cap ≤ l.length then l.drop 1 else l) ++ [t]

/-- `deque(maxlen := cap).extend(xs)`: keeps the rightmost `cap` entries. -/
def ringExtend (cap : Nat) (l : List Track) (xs : List Track) : List Track :=
  let r := l ++ xs
  r.drop (r.length - cap)

/-- `deque.insert(1, t)`: index 1 clamps to the end on a short deque. -/
def dequeInsert1 (t : Track) : List Track → List Track
  | [] => [t]
  | x :: xs => x :: t :: xs

/-- Python's `s.startswith(pre)` (structural, so concrete instances reduce
in the kernel). -/
def startsWith (s pre : String) : Bool :=
  pre.toList.isPrefixOf s.toList

/-- `get_start_pos(player, track, extra_milliseconds)` (models.py lines
42-48).  `now` is `disnake.utils.utcnow().timestamp() * 1000`. -/
def get_start_pos (last_update last_position : Int) (track : Track)
    (now extra_milliseconds : Int) : Int :=
  if ¬track.is_stream then
    let difference := (now + extra_milliseconds) - last_update
    let position := last_position + difference
    if 0 < position ∧ position < track.duration then min position track.duration
    else 0
  else 0

/-- The `LavalinkPlayer.position` property (models.py lines 554-572).
`now` is `time() * 1000`. -/
def position (st : PlayerState) (now : Int) : Int :=
  match st.current with
  | none => 0
  | some cur =>
    if ¬st.is_playing then 0
    else if st.paused ∧ ¬st.auto_pause then min st.last_position cur.duration
    else
      let difference := now - st.last_update
      let pos := st.last_position + difference
      if cur.duration < pos then 0
      else min pos cur.duration

/-- `LavalinkPlayer.track_end` (models.py lines 2863-2896).  `votes.clear()`
and the two `asyncio.sleep` calls are timing/presentation effects with no
modelled observable.  The mutation `last_track.info["extra"]["track_loops"] -= 1`
acts on the shared track object, so both the queue entry and `last_track`
carry the decremented counter.  The inner `is_previows_music` re-check in the
`loop == "queue"` arm (lines 2885-2887) is unreachable: the `elif` chain
already excluded `is_previows_music`. -/
def track_end (st : PlayerState) : PlayerState :=
  let st1 := { st with locked := true }
  let st2 :=
    match st1.last_track with
    | some t =>
      if st1.loop = LoopMode.current then
        { st1 with queue := t :: st1.queue }
      else if st1.is_previows_music then
        { st1 with queue := dequeInsert1 t st1.queue, is_previows_music := false }
      else if t.track_loops ≠ 0 then
        let t2 := { t with track_loops := t.track_loops - 1 }
        { st1 with last_track := some t2, queue := t2 :: st1.queue }
      else if st1.loop = LoopMode.queue then
        { st1 with queue := st1.queue ++ [t] }
      else if ¬t.autoplay then
        { st1 with played := ringAppend 20 st1.played t }
      else st1
    | none =>
      if st1.is_previows_music then { st1 with is_previows_music := false }
      else st1
  { st2 with locked := false }

/-- The sampling loop of `get_autoqueue_tracks` (models.py lines 1252-1262):
walk the history left to right, skip entries shorter than 90000 ms, stop once
five are collected (`if len(tracks_search) > 4: break`). -/
def sampleGo : List Track → List Track → List Track
  | [], acc => acc
  | t :: rest, acc =>
    if 4 < acc.length then acc
    else if t.duration < 90000 then sampleGo rest acc
    else sampleGo rest (acc ++ [t])

/-- The seed sample of `get_autoqueue_tracks`: the collected entries, then
`tracks_search.reverse()` (line 1272) puts the most recent first. -/
def sampleTracks (l : List Track) : List Track :=
  (sampleGo l []).reverse

/-- `LavalinkPlayer.get_autoqueue_tracks` (models.py lines 1242-1439).
The provider loop (lines 1276-1364) calls external collaborators (the Spotify
client and `node.get_tracks`); it is abstracted as the oracle `recommend`,
which receives the seed sample and returns the winning seed (`track` in the
source) together with the raw result list, or `none` when every attempt
failed.  The result post-processing is kept verbatim: the URI-prefix filter
against the whole sample (line 1401), then the per-result loop dropping
streams, sub-90000 ms results, and results sharing the winning seed's YouTube
id (lines 1414-1423); conversion to `LavalinkTrack` and the `related` info
annotation (lines 1425-1428) only touch display metadata.  The filtered
results extend the bounded `queue_autoplay` ring (maxlen 30, line 1432) and
its head is popped (line 1437). -/
def get_autoqueue_tracks (st : PlayerState)
    (recommend : List Track → Option (Track × List Track)) :
    Option Track × PlayerState :=
  match st.queue_autoplay with
  | t :: rest => (some t, { st with queue_autoplay := rest })
  | [] =>
    if st.locked then (none, st)
    else
      let tracks_search := sampleTracks (st.played ++ st.queue_autoplay)
      match tracks_search with
      | [] =>
        -- empty sample: the search block is skipped, `track` stays `None`,
        -- and the final `popleft` on the empty buffer yields nothing
        (none, st)
      | _ :: _ =>
        -- line 1274: `self.locked = True` for the duration of the search
        match recommend tracks_search with
        | none =>
          -- no provider succeeded: line 1371 clears the lock and returns
          (none, { st with locked := false })
        | some (track, results) =>
          let results := results.filter fun t =>
            ¬ tracks_search.any fun u => startsWith t.uri u.uri
          let tracks_final := results.filter fun t =>
            ¬t.is_stream ∧ ¬t.duration < 90000 ∧
              ¬(track.ytid ≠ "" ∧ track.ytid = t.ytid)
          let buf := ringExtend 30 st.queue_autoplay tracks_final
          -- line 1434 clears the lock, line 1437 pops the head
          match buf with
          | b :: rest => (some b, { st with queue_autoplay := rest, locked := false })
          | [] => (none, { st with queue_autoplay := [], locked := false })

/-- `exclude_tags` (models.py line 32). -/
def exclude_tags : List String := ["remix", "edit", "extend", "compilation", "mashup"]

/-- Whether `sub` occurs as a contiguous run inside `s`. -/
def infixChars (sub : List Char) : List Char → Bool
  | [] => sub.isEmpty
  | c :: rest => sub.isPrefixOf (c :: rest) || infixChars sub rest

/-- Python's `sub in s` substring test. -/
def containsSub (s sub : String) : Bool :=
  infixChars sub.toList s.toList

/-- Outcomes of the external collaborators (rendering node, chat client,
recommendation service) and the configuration values read by the modelled
operations; timestamps are wall-clock milliseconds.  `window403` is
`config["ERROR_403_RETRIES"]` and `extra403_ms` is
`config["ERROR_403_ADDITIONAL_MILLISECONDS"]`, both converted to
milliseconds. -/
structure Env where
  /-- `self.node and self.node.is_available` (line 1447). -/
  node_available : Bool
  /-- `self.is_connected` (line 1457, wavelink base property). -/
  is_connected : Bool
  /-- `self.guild.me.voice` (line 1460). -/
  has_voice : Bool
  /-- `self.last_channel` (line 1461). -/
  last_channel_some : Bool
  /-- recommendation oracle for `get_autoqueue_tracks` (lines 1276-1364). -/
  recommend : List Track → Option (Track × List Track)
  /-- `get_autoqueue_tracks` raised (line 1485). -/
  autoqueue_raises : Bool
  /-- `resolve_track` raised (line 1518). -/
  resolve_raises : Bool
  /-- the id `resolve_track` left on the partial track (`""` when none). -/
  resolve_id : String
  /-- results of the alternative-provider search (lines 1569-1582). -/
  alt_tracks : List Track
  /-- `node.get_tracks` raised in the `not track.id` branch (line 1618). -/
  pt_raises : Bool
  /-- that exception mentions the YouTube mismatch message (line 1620). -/
  pt_error_is_mismatch : Bool
  /-- results of `node.get_tracks` in the `not track.id` branch. -/
  pt_tracks : List Track
  /-- current wall-clock time in milliseconds. -/
  now : Int
  /-- `self.node.retry_403` (line 795). -/
  retry_403 : Bool
  /-- `self.node._closing` (line 841). -/
  node_closing : Bool
  /-- `self.node.identifier`. -/
  node_id : String
  /-- another available node exists for migration (line 853). -/
  replacement_available : Bool
  /-- `config["PARTIALTRACK_SEARCH_PROVIDER"] == "ytsearch"` (line 834). -/
  search_provider_yt : Bool
  /-- cooldown window `config["ERROR_403_RETRIES"]` in milliseconds. -/
  window403 : Int
  /-- `config["ERROR_403_ADDITIONAL_MILLISECONDS"]`. -/
  extra403_ms : Int

/-- Final segment of `process_next` (models.py lines 1670-1705): bookkeeping
once a playable track is at hand.  The `play` request and the now-playing
message are external effects. -/
def finishStart (env : Env) (st : PlayerState) (track : Track)
    (start_position : Int) (clear_autoqueue : Bool) : PlayerState :=
  let st := if clear_autoqueue then { st with queue_autoplay := [] } else st
  let st := { st with last_track := some track, is_previows_music := false,
                      locked := false }
  let start := if track.is_stream then 0 else start_position
  let st := { st with current := some track, last_update := 0,
                      last_position := start, paused := false }
  if st.auto_pause then { st with last_update := env.now } else st

/-- Middle segment of `process_next` (models.py lines 1554-1668), entered with
the lock held and the popped track resolved if it was partial.  `next` is the
tail-recursive `process_next()` continuation. -/
def afterResolve (next : PlayerState → PlayerState) (env : Env)
    (st : PlayerState) (track : Track) (start_position : Int)
    (clear_autoqueue : Bool) : PlayerState :=
  if ¬st.native_yt ∧
      (track.source_name = "youtube" ∨ track.source_name_orig = "youtube") then
    if track.is_stream ∨ 600000 < track.duration then
      -- lines 1556-1559: the lock taken at line 1509 is not cleared on this
      -- exit path, so the recursive `process_next` call returns at its guard
      next { st with failed_tracks := ringAppend 30 st.failed_tracks track }
    else if track.temp_id = "" then
      let tracks := env.alt_tracks
      -- line 1584: `not [i in track.title.lower() for i in exclude_tags]`
      -- tests a five-element list of booleans for emptiness, so the
      -- clean-match refinement below never runs
      let tracks :=
        if (exclude_tags.map fun i => containsSub track.title.toLower i) = [] then
          let final_result :=
            (tracks.find? fun t =>
              ¬ exclude_tags.any fun i => containsSub t.title.toLower i).toList
          if final_result = [] then tracks else final_result
        else tracks
      match tracks with
      | [] =>
        let st := { st with failed_tracks := ringAppend 30 st.failed_tracks track,
                            current := some track }
        next { st with locked := false }
      | t0 :: _ => finishStart env st { track with temp_id := t0.id }
          start_position clear_autoqueue
    else finishStart env st track start_position clear_autoqueue
  else if track.id = "" then
    if env.pt_raises then
      if env.pt_error_is_mismatch then
        -- lines 1620-1622: a node-wait task is spawned and the call returns;
        -- the lock stays held until that task eventually clears it
        st
      else next { st with locked := false }
    else
      match env.pt_tracks with
      | [] => next { st with locked := false }
      | t0 :: _ => finishStart env st { track with id := t0.id }
          start_position clear_autoqueue
  else finishStart env st track start_position clear_autoqueue

/-- `process_next` from the point where a track has been popped (models.py
lines 1509-1552 and onwards): takes the lock, resolves a partial track via the
node (the search call is the `resolve_raises`/`resolve_id` oracle), then
continues in `afterResolve`. -/
def startTrack (next : PlayerState → PlayerState) (env : Env)
    (st : PlayerState) (track : Track) (start_position : Int)
    (clear_autoqueue : Bool) : PlayerState :=
  let st := { st with locked := true }
  if track.is_partial ∧ track.id = "" then
    if env.resolve_raises then
      next { st with locked := false }
    else
      let track := { track with id := env.resolve_id }
      if track.id = "" then
        next { st with locked := false }
      else afterResolve next env st track start_position clear_autoqueue
  else afterResolve next env st track start_position clear_autoqueue

/-- `LavalinkPlayer.process_next(start_position, ..., clear_autoqueue)`
(models.py lines 1441-1705), with a fuel bound on the tail-recursive
self-calls (every self-call in the source uses the default arguments
`start_position=0, clear_autoqueue=True`).  Early exits before the lock is
taken: the lock/closing guard (line 1444), an unavailable node (line 1447,
which only spawns the node-wait task), a dropped voice connection with no
remembered channel (lines 1457-1464).  An empty queue consults the autoplay
engine when enabled, otherwise the session goes idle (`stop()` plus the idle
timer are external; `last_track` is cleared, line 1496). -/
def process_next : Nat → Env → PlayerState → Int → Bool → PlayerState
  | 0, _, st, _, _ => st
  | Nat.succ f, env, st, start_position, clear_autoqueue =>
    if st.locked ∨ st.is_closing then st
    else if ¬env.node_available then st
    else if ¬env.is_connected then st
    else if ¬env.has_voice ∧ ¬env.last_channel_some then st
    else
      match st.queue with
      | track :: rest =>
        startTrack (fun s => process_next f env s 0 true) env
          { st with queue := rest } track start_position clear_autoqueue
      | [] =>
        if st.autoplay ∨ st.keep_connected then
          if env.autoqueue_raises then
            -- lines 1485-1491: clear the lock, wait, then retry while idle
            let st := { st with locked := false }
            if st.current = none then process_next f env st 0 true else st
          else
            match get_autoqueue_tracks st env.recommend with
            | (some track, st2) =>
              startTrack (fun s => process_next f env s 0 true) env st2 track
                start_position false
            | (none, st2) => { st2 with last_track := none }
        else { st with last_track := none }

/-- The `wavelink.TrackEnd` arm of `LavalinkPlayer.hook` (models.py lines
627-668).  `next` is the `process_next()` continuation invoked after
`track_end()` (default arguments: start 0, clear the autoplay buffer).
`self.set_command_log` / `ignore_np_once` / the updater-task cancel are
presentation effects. -/
def hook_trackEnd (next : PlayerState → PlayerState) (st : PlayerState)
    (node_matches : Bool) (reason : String) : PlayerState :=
  if st.is_closing then st
  else if ¬node_matches then st
  else if st.locked ∨ st.auto_pause then st
  else if reason = "FINISHED" then next (track_end st)
  else if reason = "STOPPED" then
    if st.queue.length = 0 then st
    else next (track_end st)
  else st

/-- The `wavelink.TrackStart` arm of `LavalinkPlayer.hook` (models.py lines
670-711): the only queue/buffer effect is clearing the autoplay buffer when
the started track was not autoplay-derived (line 677-678); everything after is
messaging.  With no `current`, line 677 raises before any state change. -/
def hook_trackStart (st : PlayerState) (node_matches : Bool) : PlayerState :=
  if st.is_closing then st
  else if ¬node_matches then st
  else
    match st.current with
    | none => st
    | some c => if ¬c.autoplay then { st with queue_autoplay := [] } else st

/-- The `wavelink.TrackStuck` arm of `LavalinkPlayer.hook` (models.py lines
1001-1019): `track_end()` then `process_next()`, with no node or lock
guard of its own. -/
def hook_trackStuck (next : PlayerState → PlayerState) (st : PlayerState) :
    PlayerState :=
  if st.is_closing then st else next (track_end st)

/-- Outcome of the `wavelink.WebsocketClosed` arm; the handler only triggers
external actions (reconnect, destroy) and never edits queue state, so it is
modelled as a pure classification.  `rotateNode` is representable so that the
absence of node rotation is expressible. -/
inductive WSAction where
  | ignored
  | silent
  | destroyForce
  | reconnect
  | destroyDisconnected
  | rotateNode
  | noAction
  deriving Repr, DecidableEq

/-- The `wavelink.WebsocketClosed` arm of `LavalinkPlayer.hook` (models.py
lines 943-999).  `has_guild_me` is `self.guild.me` (line 948);
`has_voice_after_wait` is `self.guild.me.voice` after the one-second wait of
the 4014 branch (line 995).  Codes other than 1000, the reconnect set and
4014 fall through the handler with nothing but a warning log. -/
def hook_websocketClosed (st : PlayerState) (code : Int)
    (has_guild_me has_voice_after_wait : Bool) : WSAction :=
  if st.is_closing then .ignored
  else if code = 1000 then .silent
  else if ¬has_guild_me then .destroyForce
  else if st.is_closing then .ignored
  else if code = 4000 ∨ code = 1006 ∨ code = 1001 ∨ code = 4016 ∨
      code = 4005 ∨ code = 4006 then
    -- lines 972-991: reconnect the voice link to the current / last channel
    .reconnect
  else if code = 4014 then
    if has_voice_after_wait then .noAction else .destroyDisconnected
  else .noAction

/-- The error classes distinguished by the `wavelink.TrackException` arm via
`event.cause.startswith(...)` (models.py lines 754-762, 789-792, 875-884,
913). -/
inductive ExcCause where
  | socketTimeout
  | networkUnreachable
  | videoNotAvailable
  | webmNotSupported
  | status403
  | status400
  | decodeTokenFail
  | status204
  | connectTimeout
  | invalidBitrate
  | unknownHost
  | decoderError
  | positionBeyond
  | persistent403
  | interrupted
  | otherCause
  deriving Repr, DecidableEq

/-- First `startswith` tuple, lines 754-757. -/
def isNetworkCause : ExcCause → Bool
  | .socketTimeout => true
  | .networkUnreachable => true
  | _ => false

/-- `video_not_available` tuple, lines 758-761. -/
def isVideoNotAvailable : ExcCause → Bool
  | .videoNotAvailable => true
  | .webmNotSupported => true
  | _ => false

/-- `error_403` tuple, lines 791-792. -/
def isError403 : ExcCause → Bool
  | .status403 => true
  | .status400 => true
  | _ => false

/-- The decode/timeout-class tuple of the general handler, lines 875-884. -/
def isGeneralCause : ExcCause → Bool
  | .decodeTokenFail => true
  | .status204 => true
  | .connectTimeout => true
  | .invalidBitrate => true
  | .unknownHost => true
  | .decoderError => true
  | .positionBeyond => true
  | .persistent403 => true
  | _ => false

/-- A `wavelink.TrackException` event as the handler reads it:
`message_is_mismatch` is `event.message == "Video returned by YouTube isn't
what was requested"` (line 762) and `error_is_429` is `event.error == "This
IP address has been blocked by YouTube (429)"` (line 789). -/
structure ExcEvent where
  node_matches : Bool
  cause : ExcCause
  message_is_mismatch : Bool
  error_is_429 : Bool
  deriving Repr, DecidableEq

/-- External action requested by the `TrackException` / recovery path. -/
inductive RecAction where
  /-- dropped by the `is_closing` guard at the top of `hook`. -/
  | ignored
  /-- both `current` and `last_track` missing: line 718 raises. -/
  | crash
  /-- foreign-node event or locked session: an error report only. -/
  | reportOnly
  /-- video-unavailable: retry through the alternative YouTube method. -/
  | retryAlt
  /-- spawn `_wait_for_new_node`, optionally excluding a node. -/
  | waitNewNode (ignore : Option String)
  /-- 403 retry with a fresh / expired window (lines 800-809). -/
  | retry403Reset
  /-- 403 retry with the counter incremented (lines 811-828). -/
  | retry403Counted
  /-- node closing, nothing done (line 841). -/
  | nodeClosing
  /-- every player on the node migrated to a replacement (lines 849-860). -/
  | migrateNode
  /-- requeue at head and advance from a carried-over offset (line 940). -/
  | repositionRetry (start : Int)
  /-- advance to the next queue entry after the cooldown (line 940). -/
  | skipRetry
  deriving Repr, DecidableEq

/-- Possible verdicts of the 403 retry bookkeeping. -/
inductive R403Action where
  | resetRetry
  | countedRetry
  | escalate
  deriving Repr, DecidableEq

/-- The `retries_403` decision (models.py lines 797-830): a missing or
expired window resets the counter and retries; a counter below 3 retries and
increments; otherwise the handler escalates (the dict reset of line 832
follows in the caller either way).  `now` and `window` are in
milliseconds (`total_seconds() > config["ERROR_403_RETRIES"]` in the
source). -/
def retries_403_step (rg : Retries403) (now window : Int) :
    R403Action × Retries403 :=
  match rg.last_time with
  | none => (.resetRetry, ⟨some now, 0⟩)
  | some lt =>
    if window < now - lt then (.resetRetry, ⟨some now, 0⟩)
    else if rg.counter < 3 then (.countedRetry, ⟨some now, rg.counter + 1⟩)
    else (.escalate, ⟨none, 0⟩)

/-- The `retries_general_errors` decision (models.py lines 893-907): `none`
means the local attempts are exhausted (counter below 1 on the same node
within 180 seconds) and the session rotates away from `node_id`; otherwise
the updated counter state is returned.  Times in milliseconds (the source
compares `total_seconds() < 180`). -/
def retries_general_step (rg : RetriesGeneral) (node_id : String) (now : Int) :
    Option RetriesGeneral :=
  if rg.counter < 1 ∧ rg.last_node = node_id ∧ now - rg.last_time < 180000 then
    none
  else
    let rg := { rg with last_time := now }
    if rg.last_node = node_id then some { rg with counter := rg.counter - 1 }
    else some ⟨6, node_id, now⟩

/-- The escalation tail of the 429/403 branch (models.py lines 832-869): the
counter dict is reset, and for YouTube-sourced tracks (or Spotify tracks
resolved through `ytsearch`) every player of the node is migrated to a
replacement node, or put into the node-wait loop when none exists.  For this
session's player the migration sets `current = last_track` and clears the
lock (lines 854-860); with no replacement the lock stays held for the spawned
task.  A non-YouTube source falls through to the general section
(line 871). -/
def escalate403 (next : PlayerState → Int → PlayerState) (env : Env)
    (st : PlayerState) (track : Track) (ev : ExcEvent) :
    PlayerState × RecAction :=
  let st := { st with retries_403 := some ⟨none, 0⟩ }
  if track.source_name = "youtube" ∨
      (env.search_provider_yt ∧ track.source_name = "spotify") then
    if env.node_closing then (st, .nodeClosing)
    else if env.replacement_available then
      ({ st with current := st.last_track, locked := false }, .migrateNode)
    else (st, .waitNewNode none)
  else generalSection next env st track ev
where
  /-- Lines 871-941 of models.py: the general recovery section.  For the
  decode/timeout class the failed track is put back at the queue head, the
  per-node counter consulted, and playback resumes from `get_start_pos`; an
  interrupted node goes to the node-wait loop; otherwise the track is dropped
  to `failed_tracks` (or requeued at the tail for long keep-connected
  queues) and the player advances. -/
  generalSection (next : PlayerState → Int → PlayerState) (env : Env)
      (st : PlayerState) (track : Track) (ev : ExcEvent) :
      PlayerState × RecAction :=
    if isGeneralCause ev.cause then
      let rg := st.retries_general.getD ⟨6, env.node_id, env.now⟩
      let st := { st with retries_general := some rg,
                          queue := track :: st.queue }
      match retries_general_step rg env.node_id env.now with
      | none => (st, .waitNewNode (some env.node_id))
      | some rg2 =>
        let st := { st with retries_general := some rg2 }
        let sp := get_start_pos st.last_update st.last_position track env.now 0
        let st := { st with locked := false }
        (next st sp, .repositionRetry sp)
    else if ev.cause = .interrupted then
      ({ st with queue := track :: st.queue }, .waitNewNode none)
    else if track.track_loops = 0 then
      let st := { st with failed_tracks := ringAppend 30 st.failed_tracks track,
                          locked := false }
      (next st 0, .skipRetry)
    else if st.keep_connected ∧ ¬track.autoplay ∧ 15 < st.queue.length then
      let st := { st with queue := st.queue ++ [track], locked := false }
      (next st 0, .skipRetry)
    else
      let st := { st with locked := false }
      (next st 0, .skipRetry)

/-- The `wavelink.TrackException` arm of `LavalinkPlayer.hook` (models.py
lines 713-941).  `next` is the `process_next` continuation taking the start
offset (`clear_autoqueue` keeps its default).  Mirrors the source's order:
closing guard, `track = self.current or self.last_track`, foreign-node and
locked guards, then `locked = True; current = None` and the cause dispatch.
In the 429 case Python's `or` short-circuits, so `error_403` stays false
(line 789-793). -/
def hook_trackException (next : PlayerState → Int → PlayerState) (env : Env)
    (st : PlayerState) (ev : ExcEvent) : PlayerState × RecAction :=
  if st.is_closing then (st, .ignored)
  else
    match (match st.current with | some t => some t | none => st.last_track) with
    | none => (st, .crash)
    | some track =>
      if ¬ev.node_matches then (st, .reportOnly)
      else if st.locked then (st, .reportOnly)
      else
        let st := { st with locked := true, current := none }
        if isNetworkCause ev.cause ∨ isVideoNotAvailable ev.cause ∨
            ev.message_is_mismatch then
          if isVideoNotAvailable ev.cause then
            let st := { st with native_yt := false, current := none,
                                queue := track :: st.queue, locked := false }
            -- `process_next(start_position=self.position)`: `current` was
            -- just cleared, so the position property yields 0 (lines 556-558)
            (next st (position st env.now), .retryAlt)
          else (st, .waitNewNode none)
        else if ev.error_is_429 ∨ isError403 ev.cause then
          let e403 := ¬ev.error_is_429 ∧ isError403 ev.cause
          if e403 ∧ env.retry_403 then
            let rg := st.retries_403.getD ⟨none, 0⟩
            match retries_403_step rg env.now env.window403 with
            | (.resetRetry, rg2) =>
              ({ st with retries_403 := some rg2, locked := false },
                .retry403Reset)
            | (.countedRetry, rg2) =>
              ({ st with retries_403 := some rg2, locked := false },
                .retry403Counted)
            | (.escalate, _) =>
              escalate403 next env
                { st with queue := st.queue ++ [track] } track ev
          else escalate403 next env st track ev
        else escalate403.generalSection next env st track ev

/-! ## Concrete fixtures for witnesses and counterexamples -/

/-- A plain resolved, non-stream track. -/
def baseTrack : Track :=
  { id := "tid", title := "t", uri := "u", ytid := "", source_name := "soundcloud",
    source_name_orig := "", duration := 200000, is_stream := false,
    track_loops := 0, autoplay := false, is_partial := false, temp_id := "" }

/-- A quiescent session. -/
def baseState : PlayerState :=
  { queue := [], played := [], queue_autoplay := [], failed_tracks := [],
    current := none, last_track := none, locked := false, is_closing := false,
    loop := .off, is_previows_music := false, autoplay := false,
    keep_connected := false, native_yt := true, auto_pause := false,
    paused := false, is_playing := true, last_update := 0, last_position := 0,
    retries_403 := none, retries_general := none }

/-- A healthy environment: node up, voice connected, no external failures. -/
def baseEnv : Env :=
  { node_available := true, is_connected := true, has_voice := true,
    last_channel_some := true, recommend := fun _ => none,
    autoqueue_raises := false, resolve_raises := false, resolve_id := "",
    alt_tracks := [], pt_raises := false, pt_error_is_mismatch := false,
    pt_tracks := [], now := 0, retry_403 := true, node_closing := false,
    node_id := "N1", replacement_available := true, search_provider_yt := false,
    window403 := 7000, extra403_ms := 430 }

/-! ## C2: derived playback position -/

/-- Modelled from the spec: `clamp(lastPosition + (now - lastUpdateTimestamp),
0, duration)` — the spec's formula for the derived position, to be compared
with the `position` property translated from the source. -/
def spec_clamp (x lo hi : Int) : Int := min (max x lo) hi

/-- A session 99 s into a 100 s track, last node update at t = 1000 ms. -/
def stC2 : PlayerState :=
  { baseState with current := some { baseTrack with duration := 100000 },
                   last_position := 99000, last_update := 1000 }

/-- Claim C2 counterexample: at 2000 ms past the last update the derived sum
exceeds the duration, and the `position` property returns 0 where the claimed
clamp returns the duration; moreover a later read (now = 3000) is smaller
than an earlier one (now = 1500), refuting monotonicity while Playing. -/
theorem C2_position_not_clamped :
    position stC2 3000 = 0 ∧
    spec_clamp (stC2.last_position + (3000 - stC2.last_update)) 0 100000 = 100000 ∧
    position stC2 3000 ≠
      spec_clamp (stC2.last_position + (3000 - stC2.last_update)) 0 100000 ∧
    position stC2 3000 < position stC2 1500 := by decide

/-- Claim C2 (amended): for a playing, non-user-paused session with a
non-stream current track the derived position equals
`last_position + (now - last_update)` while that sum does not exceed the
duration, and 0 once it does (not the duration, as the clamp formula would
give); it never exceeds a non-negative duration; and it is non-decreasing
between two reads only while the derived sum stays within the duration. -/
theorem C2_position_amended (st : PlayerState) (cur : Track)
    (now now1 now2 : Int) (hc : st.current = some cur)
    (hp : st.is_playing = true) (hpa : st.paused = false)
    (hs : cur.is_stream = false) :
    (position st now =
      if cur.duration < st.last_position + (now - st.last_update) then 0
      else min (st.last_position + (now - st.last_update)) cur.duration) ∧
    (0 ≤ cur.duration → position st now ≤ cur.duration) ∧
    (now1 ≤ now2 →
      st.last_position + (now2 - st.last_update) ≤ cur.duration →
      position st now1 ≤ position st now2) := by
  have hpos : ∀ m : Int, position st m =
      if cur.duration < st.last_position + (m - st.last_update) then 0
      else min (st.last_position + (m - st.last_update)) cur.duration := by
    intro m
    simp [position, hc, hp, hpa]
  refine ⟨hpos now, ?_, ?_⟩
  · intro hd
    rw [hpos now]
    split
    · exact hd
    · exact min_le_right _ _
  · intro h12 hb2
    rw [hpos now1, hpos now2]
    have hb1 : st.last_position + (now1 - st.last_update) ≤ cur.duration := by
      omega
    rw [if_neg (by omega), if_neg (by omega)]
    have e1 : min (st.last_position + (now1 - st.last_update)) cur.duration =
        st.last_position + (now1 - st.last_update) := min_eq_left hb1
    have e2 : min (st.last_position + (now2 - st.last_update)) cur.duration =
        st.last_position + (now2 - st.last_update) := min_eq_left hb2
    rw [e1, e2]
    omega

/-- Witness for `C2_position_amended` at the concrete session `stC2`
(reads at 1500 ms and 2000 ms, both within the duration). -/
theorem C2_position_amended_witness :
    stC2.current = some { baseTrack with duration := 100000 } ∧
    stC2.is_playing = true ∧ stC2.paused = false ∧
    (1500 : Int) ≤ 2000 ∧
    stC2.last_position + (2000 - stC2.last_update) ≤ (100000 : Int) ∧
    position stC2 1500 ≤ position stC2 2000 :=
  ⟨rfl, rfl, rfl, by decide, by decide,
    ((C2_position_amended stC2 { baseTrack with duration := 100000 }
      1500 1500 2000 rfl rfl rfl rfl).2.2 (by decide) (by decide))⟩

/-! ## C3 / C10: track_end reinsertion discipline and the history ring -/

/-- `track_end`, loop-current case: reinsert at the head. -/
lemma track_end_case_current (st : PlayerState) (t : Track)
    (hl : st.last_track = some t) (h : st.loop = LoopMode.current) :
    track_end st = { st with locked := false, queue := t :: st.queue } := by
  simp [track_end, hl, h]

/-- `track_end`, previous-track case: insert at index 1, clear the flag. -/
lemma track_end_case_prev (st : PlayerState) (t : Track)
    (hl : st.last_track = some t) (hc : st.loop ≠ LoopMode.current)
    (hp : st.is_previows_music = true) :
    track_end st = { st with locked := false, is_previows_music := false,
                             queue := dequeInsert1 t st.queue } := by
  simp [track_end, hl, hc, hp]

/-- `track_end`, positive-counter case: decrement and reinsert at the head
(the queue entry and `last_track` are the same mutated object). -/
lemma track_end_case_loops (st : PlayerState) (t : Track)
    (hl : st.last_track = some t) (hc : st.loop ≠ LoopMode.current)
    (hp : st.is_previows_music = false) (hn : t.track_loops ≠ 0) :
    track_end st =
      { st with locked := false,
                last_track := some { t with track_loops := t.track_loops - 1 },
                queue := { t with track_loops := t.track_loops - 1 } :: st.queue } := by
  simp [track_end, hl, hc, hp, hn]

/-- `track_end`, loop-queue case: append at the tail. -/
lemma track_end_case_queue (st : PlayerState) (t : Track)
    (hl : st.last_track = some t) (hp : st.is_previows_music = false)
    (hn : t.track_loops = 0) (hq : st.loop = LoopMode.queue) :
    track_end st = { st with locked := false, queue := st.queue ++ [t] } := by
  have hc : st.loop ≠ LoopMode.current := by rw [hq]; decide
  simp [track_end, hl, hc, hp, hn, hq]

/-- `track_end`, history case: no reinsertion applies and the track is not
autoplay-derived, so it is recorded in the bounded history ring. -/
lemma track_end_case_hist (st : PlayerState) (t : Track)
    (hl : st.last_track = some t) (hp : st.is_previows_music = false)
    (hn : t.track_loops = 0) (hq : st.loop = LoopMode.off)
    (ha : t.autoplay = false) :
    track_end st = { st with locked := false,
                             played := ringAppend 20 st.played t } := by
  have hc : st.loop ≠ LoopMode.current := by rw [hq]; decide
  have hc2 : st.loop ≠ LoopMode.queue := by rw [hq]; decide
  simp [track_end, hl, hc, hc2, hp, hn, ha]

/-- `track_end`, autoplay case: no reinsertion applies and the track is
autoplay-derived, so nothing but the lock changes. -/
lemma track_end_case_autoplay (st : PlayerState) (t : Track)
    (hl : st.last_track = some t) (hp : st.is_previows_music = false)
    (hn : t.track_loops = 0) (hq : st.loop = LoopMode.off)
    (ha : t.autoplay = true) :
    track_end st = { st with locked := false } := by
  have hc : st.loop ≠ LoopMode.current := by rw [hq]; decide
  have hc2 : st.loop ≠ LoopMode.queue := by rw [hq]; decide
  simp [track_end, hl, hc, hc2, hp, hn, ha]

/-- The finished track of the C3 counterexample: a positive per-track loop
counter. -/
def tC3 : Track := { baseTrack with title := "T", track_loops := 2 }

/-- The queued bystander of the C3 counterexample. -/
def xC3 : Track := { baseTrack with title := "X" }

/-- C3 counterexample state: loop off, previous-track flag set, finished
track `tC3` with counter 2, queue `[xC3]`. -/
def stC3 : PlayerState :=
  { baseState with loop := .off, is_previows_music := true,
                   last_track := some tC3, queue := [xC3] }

/-- Claim C3 counterexample: with the previous-track flag set
(`is_previows_music`, models.py line 2878) the finished track with a positive
loop counter is inserted at index 1 with its counter untouched — not
reinserted at the head with the counter decremented, as the claim requires
for that state. -/
theorem C3_track_end_counterexample :
    (track_end stC3).queue = [xC3, tC3] ∧
    (track_end stC3).queue ≠ { tC3 with track_loops := 1 } :: stC3.queue ∧
    0 < tC3.track_loops := by decide

/-- Claim C3 (amended): provided the previous-track flag is not set —
when it is set, the finished track goes to index 1 unchanged and the flag is
cleared — `track_end` reinserts the finished track at the queue head under
loop-current, else decrements a positive per-track counter and reinserts at
the head, else appends at the tail under loop-queue; each case keeps the
relative order of the other queued tracks (the old queue survives intact
around the reinsertion).  Consequently, with loop-queue and queue `[A, B]`,
two completions restore `[A, B]`. -/
theorem C3_track_end_amended (st : PlayerState) (t : Track)
    (hl : st.last_track = some t) (hprev : st.is_previows_music = false) :
    (st.loop = LoopMode.current → (track_end st).queue = t :: st.queue) ∧
    (st.loop ≠ LoopMode.current → t.track_loops ≠ 0 →
      (track_end st).queue =
        { t with track_loops := t.track_loops - 1 } :: st.queue ∧
      (track_end st).last_track =
        some { t with track_loops := t.track_loops - 1 }) ∧
    (st.loop = LoopMode.queue → t.track_loops = 0 →
      (track_end st).queue = st.queue ++ [t]) ∧
    (∀ A B : Track, A.track_loops = 0 → B.track_loops = 0 →
      st.loop = LoopMode.queue →
      (track_end { track_end { st with last_track := some A, queue := [B] } with
          last_track := some B,
          queue := (track_end { st with last_track := some A, queue := [B] }).queue.tail }).queue
        = [A, B]) := by
  refine ⟨?_, ?_, ?_, ?_⟩
  · intro hcur
    rw [track_end_case_current st t hl hcur]
  · intro hcur hloops
    rw [track_end_case_loops st t hl hcur hprev hloops]
    exact ⟨rfl, rfl⟩
  · intro hq hloops
    rw [track_end_case_queue st t hl hprev hloops hq]
  · intro A B hA hB hq
    rw [track_end_case_queue { st with last_track := some A, queue := [B] } A
      rfl (by simpa using hprev) hA (by simpa using hq)]
    rw [track_end_case_queue _ B rfl (by simpa using hprev) hB
      (by simpa using hq)]
    simp

/-- A loop-queue session used by the C3 witness. -/
def stRT : PlayerState :=
  { baseState with loop := .queue, last_track := some baseTrack }

/-- First completion of the C3 witness: `xC3` just finished, `baseTrack`
still queued. -/
def stRT1 : PlayerState :=
  { stRT with last_track := some xC3, queue := [baseTrack] }

/-- Second completion of the C3 witness: `baseTrack` (popped by the advance)
just finished. -/
def stRT2 : PlayerState :=
  { track_end stRT1 with last_track := some baseTrack,
                         queue := (track_end stRT1).queue.tail }

/-- Witness for `C3_track_end_amended`: a loop-queue session with queue
`[A, B]` (two counter-free tracks) returns to `[A, B]` after two
completions. -/
theorem C3_track_end_amended_witness :
    stRT.last_track = some baseTrack ∧ stRT.is_previows_music = false ∧
    (track_end stRT2).queue = [xC3, baseTrack] := by
  refine ⟨rfl, rfl, ?_⟩
  have h := (C3_track_end_amended stRT baseTrack rfl rfl).2.2.2
    xC3 baseTrack rfl rfl rfl
  simpa [stRT2, stRT1] using h

/-- Claim C10: the finished track is appended to the play-history ring only
when no loop reinsertion applies (loop off, previous-track flag clear,
counter spent) and its autoplay flag is false; autoplay-derived tracks are
never recorded, and a history free of autoplay-derived tracks stays so. -/
theorem C10_history_no_autoplay (st : PlayerState) (t : Track)
    (hl : st.last_track = some t) :
    (t.autoplay = true → (track_end st).played = st.played) ∧
    ((track_end st).played ≠ st.played →
      st.loop = LoopMode.off ∧ st.is_previows_music = false ∧
      t.track_loops = 0 ∧ t.autoplay = false ∧
      (track_end st).played = ringAppend 20 st.played t) ∧
    ((∀ u ∈ st.played, u.autoplay = false) →
      ∀ u ∈ (track_end st).played, u.autoplay = false) := by
  have hcases : (track_end st).played = st.played ∨
      (st.loop = LoopMode.off ∧ st.is_previows_music = false ∧
        t.track_loops = 0 ∧ t.autoplay = false ∧
        (track_end st).played = ringAppend 20 st.played t) := by
    unfold track_end
    simp only [hl]
    by_cases h1 : st.loop = LoopMode.current
    · left; simp [h1]
    · by_cases h2 : st.is_previows_music
      · left; simp [h1, h2]
      · by_cases h3 : t.track_loops = 0
        · by_cases h4 : st.loop = LoopMode.queue
          · left; simp [h1, h2, h3, h4]
          · by_cases h5 : t.autoplay
            · left; simp [h1, h2, h3, h4, h5]
            · right
              have hoff : st.loop = LoopMode.off := by
                cases hL : st.loop
                · rfl
                · exact absurd hL h1
                · exact absurd hL h4
              refine ⟨hoff, by simpa using h2, h3, by simpa using h5, ?_⟩
              simp [h1, h2, h3, h4, h5]
        · left; simp [h1, h2, h3]
  refine ⟨?_, ?_, ?_⟩
  · intro ha
    rcases hcases with h | h
    · exact h
    · exact absurd ha (by simp [h.2.2.2.1])
  · intro hne
    rcases hcases with h | h
    · exact absurd h hne
    · exact h
  · intro hclean u hu
    rcases hcases with h | h
    · exact hclean u (h ▸ hu)
    · rw [h.2.2.2.2] at hu
      unfold ringAppend at hu
      rcases List.mem_append.mp hu with hu | hu
      · split at hu
        · exact hclean u (List.drop_subset _ _ hu)
        · exact hclean u hu
      · simp at hu
        rw [hu]
        exact h.2.2.2.1

/-- Witness for `C10_history_no_autoplay`: an autoplay-derived finished track
leaves the history untouched. -/
theorem C10_history_no_autoplay_witness :
    ({ baseState with last_track := some { baseTrack with autoplay := true } }).last_track
      = some { baseTrack with autoplay := true } ∧
    (track_end { baseState with
        last_track := some { baseTrack with autoplay := true } }).played
      = ({ baseState with
        last_track := some { baseTrack with autoplay := true } } : PlayerState).played :=
  ⟨rfl, (C10_history_no_autoplay
    { baseState with last_track := some { baseTrack with autoplay := true } }
    { baseTrack with autoplay := true } rfl).1 rfl⟩

/-! ## C7: duplicate TrackEnded events -/

/-- The track already moved to history in the C7 scenario. -/
def trA : Track := { baseTrack with title := "A", uri := "uA" }

/-- The currently playing track of the C7 scenario (the duplicate event's
original subject has already been replaced by it). -/
def trB : Track := { baseTrack with title := "B", uri := "uB" }

/-- The next queued track of the C7 scenario. -/
def trC : Track := { baseTrack with title := "C", uri := "uC" }

/-- C7 scenario: track `trA` finished normally earlier (so it sits in the
history and `current = last_track = trB`); a duplicate `TrackEnded` for `trA`
now arrives while the session is unlocked. -/
def stC7 : PlayerState :=
  { baseState with current := some trB, last_track := some trB,
                   queue := [trC], played := [trA] }

/-- Claim C7 counterexample: the `TrackEnd` arm never compares the event's
track with `current`, so the duplicate event for the stale track `trA`,
delivered while the session is unlocked, is processed as a genuine track
end: the playing track `trB` is pushed to the history, the queue advances to
`trC`, and `current` changes — the play-history ring, the queue and
`current` are all modified. -/
theorem C7_duplicate_trackend_counterexample :
    (hook_trackEnd (fun s => process_next 3 baseEnv s 0 true) stC7 true
      "FINISHED").played = [trA, trB] ∧
    (hook_trackEnd (fun s => process_next 3 baseEnv s 0 true) stC7 true
      "FINISHED").queue = [] ∧
    (hook_trackEnd (fun s => process_next 3 baseEnv s 0 true) stC7 true
      "FINISHED").current = some trC ∧
    stC7.played ≠ [trA, trB] ∧ stC7.queue ≠ [] ∧ stC7.current ≠ some trC := by
  decide

/-- Claim C7 (amended): a duplicate `TrackEnded` event is a no-op only when
one of the handler guards drops it — the session is closing, the event comes
from a foreign node, the session is locked or auto-paused, or the reason is
neither FINISHED nor STOPPED (or STOPPED with an empty queue); the handler
performs no track-identity check, so a duplicate delivered while unlocked is
processed as a real track end (see the counterexample). -/
theorem C7_trackend_guard_amended (next : PlayerState → PlayerState)
    (st : PlayerState) (nm : Bool) (reason : String) :
    (st.locked = true → hook_trackEnd next st nm reason = st) ∧
    (st.is_closing = true → hook_trackEnd next st nm reason = st) ∧
    (nm = false → hook_trackEnd next st nm reason = st) ∧
    (st.auto_pause = true → hook_trackEnd next st nm reason = st) ∧
    (reason ≠ "FINISHED" → reason ≠ "STOPPED" →
      hook_trackEnd next st nm reason = st) ∧
    (reason = "STOPPED" → st.queue = [] →
      hook_trackEnd next st nm reason = st) := by
  unfold hook_trackEnd
  refine ⟨?_, ?_, ?_, ?_, ?_, ?_⟩
  · intro h; simp [h]
  · intro h; simp [h]
  · intro h; simp [h]
  · intro h; simp [h]
  · intro h1 h2
    simp only [h1, h2]
    split
    · rfl
    · split
      · rfl
      · simp [if_neg h1, if_neg h2]
  · intro h1 h2
    simp [h1, h2]

/-- Witness for `C7_trackend_guard_amended`: the duplicate of the C7 scenario
is dropped when the session is locked. -/
theorem C7_trackend_guard_amended_witness :
    ({ stC7 with locked := true } : PlayerState).locked = true ∧
    hook_trackEnd (fun s => process_next 3 baseEnv s 0 true)
      { stC7 with locked := true } true "FINISHED" = { stC7 with locked := true } :=
  ⟨rfl, (C7_trackend_guard_amended (fun s => process_next 3 baseEnv s 0 true)
    { stC7 with locked := true } true "FINISHED").1 rfl⟩

/-! ## C8: WebsocketClosed recovery -/

/-- Claim C8 counterexample: a close with code 4999 (not the benign code, not
in the session-invalidation set, not 4014) takes no recovery action at all —
in particular the session does not rotate to a replacement node, as the claim
demands for "any other code". -/
theorem C8_websocket_counterexample :
    hook_websocketClosed baseState 4999 true true = WSAction.noAction ∧
    WSAction.noAction ≠ WSAction.rotateNode := by decide

/-- Claim C8 (amended): benign code 1000 is silent; codes 4000, 1006, 1001,
4016, 4005, 4006 reconnect the voice link to the previous channel; code 4014
destroys the session when the voice link did not come back (and does nothing
when it did); every other code falls through the handler with only a warning
log — the handler never rotates to a replacement node. -/
theorem C8_websocket_amended (st : PlayerState) (code : Int)
    (gme vaw : Bool) (hcl : st.is_closing = false) :
    (hook_websocketClosed st 1000 gme vaw = WSAction.silent) ∧
    (gme = true →
      code = 4000 ∨ code = 1006 ∨ code = 1001 ∨ code = 4016 ∨
        code = 4005 ∨ code = 4006 →
      hook_websocketClosed st code gme vaw = WSAction.reconnect) ∧
    (gme = true → code = 4014 →
      hook_websocketClosed st code gme vaw =
        (if vaw then WSAction.noAction else WSAction.destroyDisconnected)) ∧
    (gme = true → code ≠ 1000 →
      ¬(code = 4000 ∨ code = 1006 ∨ code = 1001 ∨ code = 4016 ∨
        code = 4005 ∨ code = 4006) →
      code ≠ 4014 →
      hook_websocketClosed st code gme vaw = WSAction.noAction) ∧
    (∀ c : Int, ∀ g v : Bool,
      hook_websocketClosed st c g v ≠ WSAction.rotateNode) := by
  refine ⟨?_, ?_, ?_, ?_, ?_⟩
  · simp [hook_websocketClosed, hcl]
  · intro hg hset
    have hne : code ≠ 1000 := by rcases hset with h|h|h|h|h|h <;> omega
    simp [hook_websocketClosed, hcl, hg, hne, hset]
  · intro hg h14
    have hne : code ≠ 1000 := by omega
    have hset : ¬(code = 4000 ∨ code = 1006 ∨ code = 1001 ∨ code = 4016 ∨
        code = 4005 ∨ code = 4006) := by omega
    simp [hook_websocketClosed, hcl, hg, hne, hset, h14]
  · intro hg hne hset h14
    simp [hook_websocketClosed, hcl, hg, hne, hset, h14]
  · intro c g v
    unfold hook_websocketClosed
    split_ifs <;> decide

/-- Witness for `C8_websocket_amended` on the quiescent session: code 1000 is
silent and code 4006 reconnects. -/
theorem C8_websocket_amended_witness :
    baseState.is_closing = false ∧
    hook_websocketClosed baseState 1000 true true = WSAction.silent ∧
    hook_websocketClosed baseState 4006 true true = WSAction.reconnect :=
  ⟨rfl, (C8_websocket_amended baseState 4006 true true rfl).1,
    (C8_websocket_amended baseState 4006 true true rfl).2.1 rfl
      (by norm_num)⟩

/-! ## C4: the YouTube-403 retry bound -/

/-- Iterate the 403 bookkeeping over a sequence of occurrence times,
collecting the verdicts. -/
def run403 (window : Int) : Retries403 → List Int → List R403Action
  | _, [] => []
  | rg, t :: ts =>
    let s := retries_403_step rg t window
    s.1 :: run403 window s.2 ts

/-- The YouTube track hit by the 403 errors of the C4 scenario. -/
def ytTrack : Track :=
  { baseTrack with title := "Y", uri := "uY", source_name := "youtube" }

/-- C4 scenario: session playing `ytTrack` on node N1, no 403 state yet. -/
def stC4 : PlayerState :=
  { baseState with current := some ytTrack, last_track := some ytTrack }

/-- The 403-class `TrackException` event of the C4 scenario. -/
def evC4 : ExcEvent :=
  { node_matches := true, cause := .status403, message_is_mismatch := false,
    error_is_429 := false }

/-- Deliver 403 events at the given times to the full exception handler,
collecting the requested actions (the `next` continuation is irrelevant:
no 403 branch advances the queue). -/
def runHook403 : List Int → PlayerState → List RecAction × PlayerState
  | [], st => ([], st)
  | t :: ts, st =>
    let r := hook_trackException (fun s _ => s) { baseEnv with now := t } st evC4
    let rest := runHook403 ts r.1
    (r.2 :: rest.1, rest.2)

/-- Claim C4 counterexample: four consecutive 403-class errors on the same
node for the same track, all inside the 7-second cooldown window, are all
answered with local retries (one window-opening reset retry and three counted
retries) — the fourth occurrence performs a fourth local retry instead of
escalating; only the fifth occurrence migrates. -/
theorem C4_fourth_retry_counterexample :
    (runHook403 [0, 1000, 2000, 3000] stC4).1 =
      [RecAction.retry403Reset, RecAction.retry403Counted,
        RecAction.retry403Counted, RecAction.retry403Counted] ∧
    (runHook403 [0, 1000, 2000, 3000] stC4).1.count RecAction.migrateNode = 0 ∧
    (runHook403 [0, 1000, 2000, 3000, 4000] stC4).1 =
      [RecAction.retry403Reset, RecAction.retry403Counted,
        RecAction.retry403Counted, RecAction.retry403Counted,
        RecAction.migrateNode] := by decide

/-- Claim C4 (amended): the first 403 occurrence in a fresh or expired window
performs a reset retry that opens the window with counter 0; after that, at
most three counted local retries are performed within the window, and the
next within-window occurrence — the fifth in all — escalates (never a fourth
counted retry): the step escalates exactly when the window is active and the
counter has reached 3. -/
theorem C4_retry_bound_amended (t0 t1 t2 t3 t4 window : Int)
    (h1 : t1 - t0 ≤ window) (h2 : t2 - t1 ≤ window)
    (h3 : t3 - t2 ≤ window) (h4 : t4 - t3 ≤ window) :
    (retries_403_step ⟨none, 0⟩ t0 window =
      (R403Action.resetRetry, ⟨some t0, 0⟩)) ∧
    (run403 window ⟨some t0, 0⟩ [t1, t2, t3, t4] =
      [R403Action.countedRetry, R403Action.countedRetry,
        R403Action.countedRetry, R403Action.escalate]) ∧
    (∀ (rg : Retries403) (now : Int),
      (retries_403_step rg now window).1 = R403Action.escalate ↔
        ∃ lt, rg.last_time = some lt ∧ now - lt ≤ window ∧ 3 ≤ rg.counter) := by
  refine ⟨rfl, ?_, ?_⟩
  · have s1 : retries_403_step ⟨some t0, 0⟩ t1 window =
        (R403Action.countedRetry, ⟨some t1, 1⟩) := by
      simp only [retries_403_step]
      rw [if_neg (by omega), if_pos (by decide)]
      norm_num
    have s2 : retries_403_step ⟨some t1, 1⟩ t2 window =
        (R403Action.countedRetry, ⟨some t2, 2⟩) := by
      simp only [retries_403_step]
      rw [if_neg (by omega), if_pos (by decide)]
      norm_num
    have s3 : retries_403_step ⟨some t2, 2⟩ t3 window =
        (R403Action.countedRetry, ⟨some t3, 3⟩) := by
      simp only [retries_403_step]
      rw [if_neg (by omega), if_pos (by decide)]
      norm_num
    have s4 : retries_403_step ⟨some t3, 3⟩ t4 window =
        (R403Action.escalate, ⟨none, 0⟩) := by
      simp only [retries_403_step]
      rw [if_neg (by omega), if_neg (by decide)]
    simp [run403, s1, s2, s3, s4]
  · intro rg now
    cases hlt : rg.last_time with
    | none => simp [retries_403_step, hlt]
    | some lt =>
      have heq : retries_403_step rg now window =
          if window < now - lt then (R403Action.resetRetry, ⟨some now, 0⟩)
          else if rg.counter < 3 then
            (R403Action.countedRetry, ⟨some now, rg.counter + 1⟩)
          else (R403Action.escalate, ⟨none, 0⟩) := by
        simp [retries_403_step, hlt]
      rw [heq]
      by_cases hw : window < now - lt
      · rw [if_pos hw]
        constructor
        · intro h
          exact absurd h (by simp)
        · rintro ⟨lt2, hlt2, hw2, _⟩
          injection hlt2 with he
          omega
      · by_cases hcnt : rg.counter < 3
        · rw [if_neg hw, if_pos hcnt]
          constructor
          · intro h
            exact absurd h (by simp)
          · rintro ⟨lt2, hlt2, _, hc⟩
            omega
        · rw [if_neg hw, if_neg hcnt]
          constructor
          · intro _
            exact ⟨lt, rfl, by omega, by omega⟩
          · intro _
            rfl

/-- Witness for `C4_retry_bound_amended` at occurrence times 0 s to 4 s with
the default 7-second window. -/
theorem C4_retry_bound_amended_witness :
    ((1000 : Int) - 0 ≤ 7000 ∧ (2000 : Int) - 1000 ≤ 7000 ∧
      (3000 : Int) - 2000 ≤ 7000 ∧ (4000 : Int) - 3000 ≤ 7000) ∧
    run403 7000 ⟨some 0, 0⟩ [1000, 2000, 3000, 4000] =
      [R403Action.countedRetry, R403Action.countedRetry,
        R403Action.countedRetry, R403Action.escalate] :=
  ⟨by decide,
    (C4_retry_bound_amended 0 1000 2000 3000 4000 7000 (by decide) (by decide)
      (by decide) (by decide)).2.1⟩

/-! ## C5: decode/timeout-class recovery -/

/-- The decode/timeout class is disjoint from the network class. -/
lemma general_not_network (c : ExcCause) (h : isGeneralCause c = true) :
    isNetworkCause c = false := by
  cases c <;> simp_all [isGeneralCause, isNetworkCause]

/-- The decode/timeout class is disjoint from the video-unavailable class. -/
lemma general_not_video (c : ExcCause) (h : isGeneralCause c = true) :
    isVideoNotAvailable c = false := by
  cases c <;> simp_all [isGeneralCause, isVideoNotAvailable]

/-- The decode/timeout class is disjoint from the 403 class. -/
lemma general_not_403 (c : ExcCause) (h : isGeneralCause c = true) :
    isError403 c = false := by
  cases c <;> simp_all [isGeneralCause, isError403]

/-- The decode/timeout class does not contain the interrupted cause. -/
lemma general_not_interrupted (c : ExcCause) (h : isGeneralCause c = true) :
    c ≠ ExcCause.interrupted := by
  cases c <;> simp_all [isGeneralCause]

/-- Claim C5: for every decode/timeout-class `TrackException` (decoder error,
connect timeout, unknown host, …) delivered to an unlocked, open session, the
handler reinserts the failed track at the head of the queue; while local
attempts remain it advances with `start_position = get_start_pos(...)` — the
last position plus the wall-clock elapsed, which stays below the track's
duration and is 0 for streams — and once the per-node counter is exhausted
(counter below 1 on the same node within the 180-second window) it enters the
node-wait loop excluding the current node. -/
theorem C5_general_error_recovery (next : PlayerState → Int → PlayerState)
    (env : Env) (st : PlayerState) (ev : ExcEvent) (track : Track)
    (hcl : st.is_closing = false) (hcur : st.current = some track)
    (hnm : ev.node_matches = true) (hlk : st.locked = false)
    (hg : isGeneralCause ev.cause = true)
    (h429 : ev.error_is_429 = false) (hmm : ev.message_is_mismatch = false) :
    (retries_general_step (st.retries_general.getD ⟨6, env.node_id, env.now⟩)
        env.node_id env.now = none →
      hook_trackException next env st ev =
        ({ st with
            locked := true,
            current := none,
            retries_general :=
              some (st.retries_general.getD ⟨6, env.node_id, env.now⟩),
            queue := track :: st.queue },
          RecAction.waitNewNode (some env.node_id))) ∧
    (∀ rg2, retries_general_step
        (st.retries_general.getD ⟨6, env.node_id, env.now⟩)
        env.node_id env.now = some rg2 →
      hook_trackException next env st ev =
        (next { st with
            locked := false,
            current := none,
            retries_general := some rg2,
            queue := track :: st.queue }
          (get_start_pos st.last_update st.last_position track env.now 0),
          RecAction.repositionRetry
            (get_start_pos st.last_update st.last_position track env.now 0))) ∧
    (∀ rg, retries_general_step rg env.node_id env.now = none ↔
      rg.counter < 1 ∧ rg.last_node = env.node_id ∧
        env.now - rg.last_time < 180000) ∧
    (track.is_stream = true →
      get_start_pos st.last_update st.last_position track env.now 0 = 0) ∧
    (0 ≤ track.duration →
      get_start_pos st.last_update st.last_position track env.now 0 ≤
        track.duration) ∧
    (track.is_stream = false →
      0 < st.last_position + (env.now - st.last_update) →
      st.last_position + (env.now - st.last_update) < track.duration →
      get_start_pos st.last_update st.last_position track env.now 0 =
        st.last_position + (env.now - st.last_update)) := by
  have hnet : isNetworkCause ev.cause = false := general_not_network _ hg
  have hvid : isVideoNotAvailable ev.cause = false := general_not_video _ hg
  have h403 : isError403 ev.cause = false := general_not_403 _ hg
  have hbranch : hook_trackException next env st ev =
      escalate403.generalSection next env
        { st with locked := true, current := none } track ev := by
    simp [hook_trackException, hcl, hcur, hnm, hlk, hnet, hvid, h403, h429, hmm]
  refine ⟨?_, ?_, ?_, ?_, ?_, ?_⟩
  · intro hnone
    rw [hbranch]
    simp only [escalate403.generalSection, hg, if_pos]
    rw [hnone]
  · intro rg2 hsome
    rw [hbranch]
    simp only [escalate403.generalSection, hg, if_pos]
    rw [hsome]
  · intro rg
    unfold retries_general_step
    constructor
    · intro h
      by_cases hc : rg.counter < 1 ∧ rg.last_node = env.node_id ∧
          env.now - rg.last_time < 180000
      · exact hc
      · rw [if_neg hc] at h
        by_cases hn : rg.last_node = env.node_id
        · simp [hn] at h
        · simp [hn] at h
    · intro hc
      rw [if_pos hc]
  · intro hstream
    simp [get_start_pos, hstream]
  · intro hd
    unfold get_start_pos
    split
    · dsimp only
      split
      · exact min_le_right _ _
      · exact hd
    · exact hd
  · intro hstream h0 hlt
    unfold get_start_pos
    rw [if_pos (by simp [hstream])]
    dsimp only
    rw [if_pos ⟨by omega, by omega⟩]
    have hb : st.last_position + ((env.now + 0) - st.last_update) ≤
        track.duration := by omega
    rw [min_eq_left hb]
    omega

/-- The track hit by the decode/timeout-class error of the C5 witness. -/
def gTrack : Track := { baseTrack with title := "G", uri := "uG" }

/-- C5 witness session: playing `gTrack`, 5 s in, no general-error state. -/
def stC5 : PlayerState :=
  { baseState with current := some gTrack, last_track := some gTrack,
                   last_position := 5000, last_update := 0 }

/-- A connect-timeout `TrackException`. -/
def evC5 : ExcEvent :=
  { node_matches := true, cause := .connectTimeout,
    message_is_mismatch := false, error_is_429 := false }

/-- The C5 witness environment: the error arrives at t = 60 s. -/
def envC5 : Env := { baseEnv with now := 60000 }

/-- Witness for `C5_general_error_recovery`: the connect timeout at t = 60 s
requeues `gTrack` at the head and retries from 65 s (5 s played plus 60 s of
wall clock). -/
theorem C5_general_error_recovery_witness :
    stC5.is_closing = false ∧ stC5.locked = false ∧
    isGeneralCause evC5.cause = true ∧
    (hook_trackException (fun s _ => s) envC5 stC5 evC5).2 =
      RecAction.repositionRetry 65000 ∧
    (hook_trackException (fun s _ => s) envC5 stC5 evC5).1.queue = [gTrack] := by
  have h := (C5_general_error_recovery (fun s _ => s) envC5 stC5 evC5 gTrack
    rfl rfl rfl rfl rfl rfl rfl).2.1 ⟨5, "N1", 60000⟩ (by decide)
  refine ⟨rfl, rfl, rfl, ?_, ?_⟩ <;> rw [h] <;> decide

/-! ## C6: the autoplay engine -/

/-- Once five entries are collected the sampling loop is inert. -/
lemma sampleGo_stop (l acc : List Track) (h : 4 < acc.length) :
    sampleGo l acc = acc := by
  cases l with
  | nil => rfl
  | cons t rest => rw [sampleGo, if_pos h]

/-- The sampling loop collects exactly the first five duration-eligible
entries. -/
lemma sampleGo_eq : ∀ (l acc : List Track), acc.length ≤ 4 →
    sampleGo l acc =
      acc ++ ((l.filter fun t => ¬t.duration < 90000).take (5 - acc.length))
  | [], acc, _ => by simp [sampleGo]
  | t :: rest, acc, h => by
    rw [sampleGo, if_neg (by omega)]
    by_cases hd : t.duration < 90000
    · rw [if_pos hd, sampleGo_eq rest acc h]
      simp [List.filter_cons, hd]
    · rw [if_neg hd]
      by_cases h4 : acc.length = 4
      · rw [sampleGo_stop rest _ (by simp [h4])]
        have h1 : 5 - acc.length = 1 := by omega
        simp [List.filter_cons, h1, show (90000:Int) ≤ t.duration by omega]
      · have hlen : (acc ++ [t]).length ≤ 4 := by
          simp only [List.length_append, List.length_singleton]
          omega
        rw [sampleGo_eq rest (acc ++ [t]) hlen]
        have h5 : 5 - acc.length = (5 - (acc ++ [t]).length) + 1 := by
          simp only [List.length_append, List.length_singleton]
          omega
        simp [List.filter_cons, h5, List.take_succ_cons,
          show (90000:Int) ≤ t.duration by omega]

/-- The seed sample is the five oldest eligible history entries, reversed
(most recent of them first). -/
lemma sampleTracks_eq (l : List Track) :
    sampleTracks l =
      ((l.filter fun t => ¬t.duration < 90000).take 5).reverse := by
  unfold sampleTracks
  rw [sampleGo_eq l [] (by simp)]
  simp

/-- The filtered recommendation results as they land in the candidate ring
(the slow path of `get_autoqueue_tracks` with an empty buffer): the URI-prefix
filter against the seeds, then the stream / duration / seed-YouTube-id
filter, bounded by the ring capacity. -/
def autoFinals (seeds : List Track) (sd : Track) (results : List Track) :
    List Track :=
  ringExtend 30 []
    ((results.filter fun t => ¬ seeds.any fun u => startsWith t.uri u.uri).filter
      fun t => ¬t.is_stream ∧ ¬t.duration < 90000 ∧
        ¬(sd.ytid ≠ "" ∧ sd.ytid = t.ytid))

/-- Claim C6: with a non-empty candidate buffer `get_autoqueue_tracks` pops
and returns the head (FIFO fast path); with an empty buffer it samples up to
5 history entries at or above the 90000 ms threshold ordered most-recent-first
(within the sample), seeds the recommendation oracle with exactly that
sample, filters the results — dropping streams, sub-threshold results, and
results whose URI extends a sampled seed's URI or whose YouTube id matches
the winning seed — stores them in the bounded candidate ring and returns its
head. -/
theorem C6_autoqueue (st : PlayerState)
    (recommend : List Track → Option (Track × List Track)) :
    (∀ t rest, st.queue_autoplay = t :: rest →
      get_autoqueue_tracks st recommend =
        (some t, { st with queue_autoplay := rest })) ∧
    (sampleTracks st.played =
        ((st.played.filter fun t => ¬t.duration < 90000).take 5).reverse ∧
      (sampleTracks st.played).length ≤ 5 ∧
      ∀ u ∈ sampleTracks st.played, 90000 ≤ u.duration) ∧
    (st.queue_autoplay = [] → st.locked = false →
      ∀ sd results, recommend (sampleTracks st.played) = some (sd, results) →
        sampleTracks st.played ≠ [] →
        get_autoqueue_tracks st recommend =
          ((autoFinals (sampleTracks st.played) sd results).head?,
            { st with
                queue_autoplay :=
                  (autoFinals (sampleTracks st.played) sd results).tail,
                locked := false }) ∧
        ∀ u ∈ autoFinals (sampleTracks st.played) sd results,
          u.is_stream = false ∧ 90000 ≤ u.duration ∧
            (sampleTracks st.played).all
              (fun v => ¬ startsWith u.uri v.uri) = true) := by
  refine ⟨?_, ⟨sampleTracks_eq _, ?_, ?_⟩, ?_⟩
  · intro t rest hq
    simp [get_autoqueue_tracks, hq]
  · rw [sampleTracks_eq]
    simp only [List.length_reverse]
    exact le_trans (List.length_take_le _ _) le_rfl
  · intro u hu
    rw [sampleTracks_eq] at hu
    rw [List.mem_reverse] at hu
    have hu2 := List.take_subset _ _ hu
    have := (List.mem_filter.mp hu2).2
    simpa using of_decide_eq_true this
  · intro hbuf hlk sd results hrec hne
    have hsample : sampleTracks (st.played ++ st.queue_autoplay) =
        sampleTracks st.played := by rw [hbuf, List.append_nil]
    constructor
    · obtain ⟨s0, srest, hs⟩ : ∃ s0 srest,
          sampleTracks st.played = s0 :: srest := by
        cases hx : sampleTracks st.played with
        | nil => exact absurd hx hne
        | cons a b => exact ⟨a, b, rfl⟩
      unfold get_autoqueue_tracks
      rw [hbuf]
      simp only [List.append_nil]
      rw [hs] at hrec ⊢
      rw [hrec]
      simp only [hlk, Bool.false_eq_true, if_false]
      have hE : ringExtend 30 []
          ((results.filter fun t =>
            ¬ (s0 :: srest).any fun u => startsWith t.uri u.uri).filter
            fun t => ¬t.is_stream ∧ ¬t.duration < 90000 ∧
              ¬(sd.ytid ≠ "" ∧ sd.ytid = t.ytid)) =
          autoFinals (s0 :: srest) sd results := rfl
      rw [hE]
      cases hb : autoFinals (s0 :: srest) sd results with
      | nil => simp
      | cons b rest => simp
    · intro u hu
      unfold autoFinals at hu
      have hu2 := List.drop_subset _ _ hu
      obtain ⟨hmem, ⟨hstr, hdur, hyt⟩, hpre⟩ :
          u ∈ results ∧
            (u.is_stream = false ∧ 90000 ≤ u.duration ∧
              (sd.ytid = "" ∨ ¬sd.ytid = u.ytid)) ∧
            ∀ x ∈ sampleTracks st.played, startsWith u.uri x.uri = false := by
        simpa using hu2
      refine ⟨hstr, hdur, ?_⟩
      rw [List.all_eq_true]
      intro v hv
      simpa using hpre v hv

/-- The eligible history entry seeding the C6 witness. -/
def seedC6 : Track :=
  { baseTrack with title := "S", uri := "uS", duration := 120000 }

/-- A history entry below the 90000 ms threshold (excluded from the seeds). -/
def shortC6 : Track :=
  { baseTrack with title := "sh", uri := "vShort", duration := 50000 }

/-- The surviving recommendation result of the C6 witness. -/
def goodC6 : Track :=
  { baseTrack with title := "R", uri := "uR", duration := 150000 }

/-- A continuous-stream recommendation result (dropped). -/
def streamC6 : Track :=
  { baseTrack with title := "L", uri := "uL", duration := 150000,
                   is_stream := true }

/-- A recommendation result whose URI extends the seed's URI (dropped). -/
def dupC6 : Track :=
  { baseTrack with title := "D", uri := "uS-mix", duration := 150000 }

/-- The C6 witness session: empty candidate buffer, history with one short
and one eligible entry. -/
def stC6 : PlayerState := { baseState with played := [shortC6, seedC6] }

/-- The C6 witness recommendation oracle: answers only the expected seed
sample. -/
def recC6 : List Track → Option (Track × List Track) :=
  fun seeds =>
    if seeds = [seedC6] then
      some (seedC6, [streamC6, dupC6, goodC6])
    else none

/-- Witness for `C6_autoqueue`: the stream and the seed-URI duplicate are
filtered out and the surviving result is buffered and returned. -/
theorem C6_autoqueue_witness :
    stC6.queue_autoplay = [] ∧ stC6.locked = false ∧
    recC6 (sampleTracks stC6.played) =
      some (seedC6, [streamC6, dupC6, goodC6]) ∧
    sampleTracks stC6.played = [seedC6] ∧
    (get_autoqueue_tracks stC6 recC6).1 = some goodC6 ∧
    (get_autoqueue_tracks stC6 recC6).2.queue_autoplay = [] := by
  have h := ((C6_autoqueue stC6 recC6).2.2 rfl rfl seedC6
    [streamC6, dupC6, goodC6] (by decide) (by decide)).1
  refine ⟨rfl, rfl, by decide, by decide, ?_, ?_⟩ <;> rw [h] <;> decide

/-! ## C1: the process_next lock discipline -/

/-- `process_next` entered while locked or closing returns the state
unchanged (models.py line 1444). -/
lemma process_next_guard (f : Nat) (env : Env) (st : PlayerState)
    (sp : Int) (ca : Bool) (h : st.locked = true ∨ st.is_closing = true) :
    process_next f env st sp ca = st := by
  cases f with
  | zero => rfl
  | succ f =>
    unfold process_next
    rcases h with h | h <;> simp [h]

/-- A YouTube track longer than ten minutes, already resolved. -/
def ytLong : Track :=
  { baseTrack with title := "YL", uri := "uYL", source_name := "youtube",
                   duration := 700000 }

/-- The C1 failing state: alternative-YouTube mode active (`native_yt`
cleared by an earlier video-unavailable error) with `ytLong` at the queue
head; the session is unlocked and open. -/
def stC1 : PlayerState := { baseState with native_yt := false, queue := [ytLong] }

/-- Claim C1, code evaluation at the failing input: `process_next` enters
with `locked = false` but returns with `locked = true` — the exit path of
models.py lines 1556-1559 (non-native YouTube mode, stream or overlong
track) drops the track to `failed_tracks` and returns without clearing the
lock taken at line 1509, so the recursive `process_next()` call it makes is a
guard no-op and the session stays locked. -/
theorem C1_process_next_lock_leak :
    stC1.locked = false ∧ stC1.is_closing = false ∧
    (process_next 5 baseEnv stC1 0 true).locked = true ∧
    (process_next 5 baseEnv stC1 0 true).current = none ∧
    (process_next 5 baseEnv stC1 0 true).failed_tracks = [ytLong] ∧
    (process_next 5 baseEnv stC1 0 true).queue = [] := by decide

/-! ## C9: a closing session accepts no new work -/

/-- Claim C9: once `is_closing` is true, `process_next` returns without
touching `current` or the queue (models.py line 1444), and every
rendering-node event — TrackEnd, TrackStart, TrackStuck, TrackException,
WebsocketClosed — is dropped unprocessed by the hook's entry guard
(models.py lines 629-630). -/
theorem C9_closing_no_new_work (f : Nat) (env : Env) (st : PlayerState)
    (sp : Int) (ca : Bool) (next : PlayerState → PlayerState)
    (nextE : PlayerState → Int → PlayerState) (nm : Bool) (reason : String)
    (ev : ExcEvent) (code : Int) (gme vaw : Bool)
    (h : st.is_closing = true) :
    process_next f env st sp ca = st ∧
    hook_trackEnd next st nm reason = st ∧
    hook_trackStart st nm = st ∧
    hook_trackStuck next st = st ∧
    hook_trackException nextE env st ev = (st, RecAction.ignored) ∧
    hook_websocketClosed st code gme vaw = WSAction.ignored := by
  refine ⟨process_next_guard f env st sp ca (Or.inr h), ?_, ?_, ?_, ?_, ?_⟩
  · simp [hook_trackEnd, h]
  · simp [hook_trackStart, h]
  · simp [hook_trackStuck, h]
  · simp [hook_trackException, h]
  · simp [hook_websocketClosed, h]

/-- The closing session of the C9 witness. -/
def stC9 : PlayerState :=
  { baseState with is_closing := true, queue := [trC], current := some trB }

/-- Witness for `C9_closing_no_new_work`: a closing session with a queued
track ignores an advance and a `TrackEnd` event. -/
theorem C9_closing_no_new_work_witness :
    stC9.is_closing = true ∧
    process_next 5 baseEnv stC9 0 true = stC9 ∧
    hook_trackEnd (fun s => s) stC9 true "FINISHED" = stC9 :=
  ⟨rfl,
    (C9_closing_no_new_work 5 baseEnv stC9 0 true (fun s => s) (fun s _ => s)
      true "FINISHED" evC4 1000 true true rfl).1,
    (C9_closing_no_new_work 5 baseEnv stC9 0 true (fun s => s) (fun s _ => s)
      true "FINISHED" evC4 1000 true true rfl).2.1⟩

end AyakaModels
